import Mathlib

/-!
Verification development for the leo_segmentation repository.

The definitions below are shallow embeddings of the functions in
src/leo_segmentation/model.py and src/leo_segmentation/utils.py.
Tensors are abstracted componentwise by rational numbers; lists of
parameter tensors become lists of rationals; autograd gradients become
abstract functions supplied as model parameters.  Fallible operations
(Python exceptions such as NameError, IndexError, ValueError) return
Option values or explicit outcome values; in particular, a statement
that reads an unbound Python name is embedded as the failing lookup of
that name, never as the value the author presumably intended.
-/

/- ### Meta optimization across tasks: LEO.compute_loss (model.py lines 237-291)

The source iterates over the tasks of a batch; for each task it first
computes the per-task gradients (leo_inner_loop followed by
finetuning_inner_loop), then, in meta_train mode, performs the
averaging block of lines 263-271, assigns the gradient slots and calls
optimizer_decoder.step() and optimizer_seg_network.step() (lines
272-280) while still inside the per-task loop.  The embedding records
the gradient slots together with step counters and an event trace so
that the temporal ordering of gradient computations and optimizer
updates can be stated. -/

/-- Events emitted by one episode of compute_loss: completion of one
task's gradient computation, one Adam step on the decoder parameters,
one Adam step on the segmentation weight. -/
inductive MetaEvent where
  | taskGrads (task : Nat) : MetaEvent
  | decoderStep : MetaEvent
  | segStep : MetaEvent
  deriving DecidableEq, Repr

/-- State threaded through the per-task loop of compute_loss:
the running total of averaged decoder gradients (the Python variable
total_grads, None before the first task), the gradient slots assigned
onto the decoder parameters and the segmentation weight, counters of
optimizer step calls, and the event trace. -/
structure MetaAccum where
  total_grads : Option (List ℚ)
  decoder_grad_slot : Option (List ℚ)
  seg_grad_slot : Option ℚ
  decoder_steps : Nat
  seg_steps : Nat
  trace : List MetaEvent

/-- One iteration of the loop in compute_loss (meta_train branch,
model.py lines 257-280).  The argument grads is the pair
(decoder_grads, seg_weight_grad) returned by the per-task inner and
finetuning loops.  Lines 263-271 of the source: decoder gradients are
divided by num_tasks and added to the running total; for the first
task the seg gradient is divided by num_tasks, for later tasks the
source executes the self-addition seg_weight_grad += seg_weight_grad
divided by num_tasks, which is reproduced verbatim here.  Lines
272-280: the gradient slots are cleared and reassigned and both
optimizer steps run, still inside the loop. -/
def compute_loss_task (num_tasks : Nat) (batch : Nat) (grads : List ℚ × ℚ)
    (st : MetaAccum) : MetaAccum :=
  let decoder_grads := grads.1.map (fun g => g / (num_tasks : ℚ))
  let acc :=
    match st.total_grads with
    | none => (decoder_grads, grads.2 / (num_tasks : ℚ))
    | some tg => (List.zipWith (fun a b => a + b) tg decoder_grads,
                  grads.2 + grads.2 / (num_tasks : ℚ))
  { total_grads := some acc.1
    decoder_grad_slot := some acc.1
    seg_grad_slot := some acc.2
    decoder_steps := st.decoder_steps + 1
    seg_steps := st.seg_steps + 1
    trace := st.trace ++ [MetaEvent.taskGrads batch, MetaEvent.decoderStep,
                          MetaEvent.segStep] }

/-- The per-task loop of compute_loss in meta_train mode, folded over
the batch indices 0 .. num_tasks - 1; task_grads gives the per-task
gradient pair produced by the inner and finetuning loops. -/
def compute_loss (num_tasks : Nat) (task_grads : Nat → List ℚ × ℚ) : MetaAccum :=
  (List.range num_tasks).foldl
    (fun st b => compute_loss_task num_tasks b (task_grads b) st)
    { total_grads := none, decoder_grad_slot := none, seg_grad_slot := none,
      decoder_steps := 0, seg_steps := 0, trace := [] }

/-- True when some task's gradient computation happens after an
optimizer step has already been applied, i.e. when meta parameters are
mutated before the whole batch has been processed. -/
def grads_after_update (tr : List MetaEvent) : Bool :=
  (tr.foldl
    (fun acc e =>
      match e with
      | MetaEvent.taskGrads _ => (acc.1, acc.2 || acc.1)
      | _ => (true, acc.2))
    (false, false)).2

/- ### Inner loop latent adaptation: LEO.leo_inner_loop (model.py lines 152-178)

The source runs one initial forward pass (line 167, discarding the
features component as an underscore), computes the training loss with
the target-first call loss_fn(y, pred) (line 168), then iterates the
latent update num_adaptation_steps times; inside the loop a fresh
forward pass binds features and the loss is recomputed with
loss_fn(pred, y.long()).  After the loop the gradient of the final
training loss with respect to the segmentation weight is taken and the
pair (seg_weight_grad, features) is returned.  When the loop body
never runs, the name features was never bound (it was discarded as an
underscore in the initial unpacking), so the return statement raises
NameError; the embedding models this with an Option that is none
exactly when features is unbound. -/

/-- Abstract model of the quantities appearing in leo_inner_loop for a
fixed training pair.  Rationals serve as abstract value carriers;
gradients are abstract functions of the current loss node. -/
structure InnerModel where
  latent0 : ℚ
  pred0 : ℚ
  inner_lr : ℚ
  fwd : ℚ → ℚ × ℚ
  loss_target_first : ℚ → ℚ
  loss_pred_first : ℚ → ℚ
  grad_latent : ℚ → ℚ
  grad_seg : ℚ → ℚ

/-- The loop state of leo_inner_loop after k iterations: the current
latents, the features binding (none while the loop body has not yet
run), and the current training loss.  Iteration body, model.py lines
169-175: take the gradient of the loss with respect to the latents,
descend one step, re-run the forward pass with the updated latents,
recompute the loss. -/
def inner_iterate (m : InnerModel) : Nat → ℚ × Option ℚ × ℚ
  | 0 => (m.latent0, none, m.loss_target_first m.pred0)
  | Nat.succ k =>
      let st := inner_iterate m k
      let latents_grad := m.grad_latent st.2.2
      let latents1 := st.1 - m.inner_lr * latents_grad
      let fp := m.fwd latents1
      (latents1, some fp.1, m.loss_pred_first fp.2)

/-- Final state of leo_inner_loop: the loop state after all adaptation
steps together with the gradient of the final training loss with
respect to the segmentation weight (model.py lines 176-177). -/
structure InnerRun where
  latents : ℚ
  features : Option ℚ
  tr_loss : ℚ
  seg_weight_grad : ℚ

/-- Runs leo_inner_loop up to and including the final seg weight
gradient computation. -/
def leo_inner_loop_run (m : InnerModel) (steps : Nat) : InnerRun :=
  let st := inner_iterate m steps
  { latents := st.1, features := st.2.1, tr_loss := st.2.2,
    seg_weight_grad := m.grad_seg st.2.2 }

/-- The value returned by leo_inner_loop (model.py line 178): the pair
of the seg weight gradient and the features, or none when the name
features is unbound because the loop body never executed (Python
raises NameError there). -/
def leo_inner_loop (m : InnerModel) (steps : Nat) : Option (ℚ × ℚ) :=
  let r := leo_inner_loop_run m steps
  match r.features with
  | some f => some (r.seg_weight_grad, f)
  | none => none

/- ### Segmentation head: LEO.forward_segnetwork (model.py lines 115-128)

Images and feature maps are embedded as lists of channel planes, a
plane being a rational-valued function of integer coordinates read
through zero padding outside the height and width bounds.  The
convolution embeds torch.nn.functional.conv2d for 3 by 3 kernels with
explicit stride, padding and optional bias arguments.  The source call
at line 127 passes the name bias as the third conv2d argument; that
name is unbound in the function and in every enclosing scope (line 127
is its sole occurrence in the source), so evaluating the argument
raises NameError on every call and the convolution is never applied.
The embedding models the name lookup explicitly and returns none on
its failure. -/

/-- One channel plane of a spatial tensor. -/
abbrev Plane : Type := ℤ → ℤ → ℚ

/-- One 3 by 3 convolution kernel slice. -/
abbrev Kern3 : Type := Fin 3 → Fin 3 → ℚ

/-- Reads a plane with zero padding outside the bounds 0 .. H - 1 and
0 .. W - 1. -/
def pad_access (H W : Nat) (p : Plane) (i j : ℤ) : ℚ :=
  if 0 ≤ i ∧ i < (H : ℤ) ∧ 0 ≤ j ∧ j < (W : ℤ) then p i j else 0

/-- torch.nn.functional.conv2d for 3 by 3 kernels: input channels as
planes, weight as a list of output channels each holding one kernel
per input channel, an optional per-output-channel bias, and explicit
stride and padding.  Output channel o at position (i, j) sums the
kernel-weighted 3 by 3 neighborhoods of all input channels read at
stride * i - padding + a and stride * j - padding + b, plus the bias
entry (zero when the bias argument is none). -/
def conv2d (H W : Nat) (input : List Plane) (weight : List (List Kern3))
    (bias : Option (List ℚ)) (stride padding : ℤ) : List Plane :=
  let biases :=
    match bias with
    | some bs => bs
    | none => List.replicate weight.length 0
  (weight.zip biases).map (fun wc =>
    fun i j =>
      wc.2 + (List.zipWith
        (fun p k => ∑ a : Fin 3, ∑ b : Fin 3,
          k a b * pad_access H W p (stride * i - padding + ((a : Nat) : ℤ))
            (stride * j - padding + ((b : Nat) : ℤ)))
        input wc.1).sum)

/-- The stored state of the segmentation head: the meta-learned weight
self.seg_weight of model.py lines 88-90. -/
structure SegHead where
  seg_weight : List (List Kern3)

/-- The lookup of the Python name bias at model.py line 127.  The
outer Option is the success of the name lookup, the inner value would
be the conv2d bias argument the name denotes.  The name is unbound
(line 127 is its sole occurrence in the source), so the lookup fails:
the value is none and every evaluation of the argument raises
NameError. -/
def bias_lookup : Option (Option (List ℚ)) := none

/-- forward_segnetwork (model.py lines 115-128): concatenate the
decoder output with the input image along the channel axis, then
evaluate F.conv2d(o, weight, bias, padding=1).  Evaluating the third
argument looks up the unbound name bias, so the call raises NameError
(the none result) before the convolution is applied; on a successful
lookup the convolution with the supplied weight, stride 1 and padding
1 would be returned. -/
def forward_segnetwork (_head : SegHead) (H W : Nat)
    (decoder_out x : List Plane) (weight : List (List Kern3)) :
    Option (List Plane) :=
  let o := decoder_out ++ x
  match bias_lookup with
  | some b => some (conv2d H W o weight b 1 1)
  | none => none

/- ### Finetuning loop: LEO.finetuning_inner_loop (model.py lines 180-235)

The source initializes a task-local weight (line 200), then enters a
loop over range(num_finetuning_steps - 1).  The first statement of the
loop body (line 202) calls forward_segnetwork on the training set;
that call evaluates the unbound name bias and raises NameError, so the
iteration aborts before the loss (line 203), the gradient (lines
204-205) and the descent step (line 206) can run, and neither mode
branch is reached.  The dead continuation is embedded as written: in
the meta_train branch the validation head call of line 211 performs
the same failing bias lookup, and the gradient statement of lines
213-215 is syntactically malformed (line 213 ends in torch.autograd.
with no continuation, and the intended call passes the generator
self.decoder.parameters() where grad requires tensors), embedded as
the malformedStmt error at the point the statement would execute; the
other branch reads the unbound name data at line 221.  When
num_finetuning_steps is at most 1 the loop body never runs and the
function falls through, returning Python None.  The embedding keeps a
ghost counter of descent steps on the local weight, records the
initial local weight, the returned value, the raised exception, and
the meta weight after the call. -/

/-- Python exceptions surfaced by the embedded finetuning paths: the
lookup failure of an unbound name, and the syntactically malformed
gradient statement of model.py lines 213-215, which cannot execute. -/
inductive PyError where
  | nameError (id : String) : PyError
  | malformedStmt : PyError
  deriving DecidableEq, Repr

/-- The training mode strings of the source. -/
inductive Mode where
  | meta_train : Mode
  | meta_val : Mode
  | meta_test : Mode
  deriving DecidableEq, Repr

/-- Abstract model of the quantities appearing in
finetuning_inner_loop for a fixed task: the prediction the training
head call of line 202 would produce at the current local weight were
the name bias bound, the training loss and its gradient with respect
to the current weight (lines 203-205), and the prediction and loss the
validation head call of lines 211-212 would produce.  All of these sit
on paths cut short by the failing bias lookup; they parameterize the
dead continuations so that the embedding keeps the full statement
structure of the source. -/
structure FtModel where
  seg_weight : ℚ
  finetuning_lr : ℚ
  pred_tr : ℚ → ℚ
  loss_tr : ℚ → ℚ
  grad_tr : ℚ → ℚ
  pred_val : ℚ → ℚ
  loss_val : ℚ → ℚ

/-- A call site of forward_segnetwork with abstract prediction value:
the call first evaluates the unbound name bias (see bias_lookup and
forward_segnetwork), so it yields the prediction only when that lookup
succeeds, which it never does. -/
def seg_call (pred : ℚ) : Option ℚ :=
  match bias_lookup with
  | some _ => some pred
  | none => none

/-- Output of the loop of finetuning_inner_loop: the value produced by
an explicit return statement (none when no return executed), the
exception raised (none when none was), and the ghost count of descent
steps performed on the local weight. -/
structure FtLoopOut where
  result : Option (ℚ × Option ℚ × Option (List ℚ) × ℚ)
  raised : Option PyError
  gd_steps : Nat

/-- The loop of finetuning_inner_loop over range(num_steps - 1); the
first argument is the number of remaining iterations, then the current
local weight and the ghost step counter.  Fuel 0 is the loop falling
through (the implicit Python None).  An iteration executes the source
statements in order and aborts at the first failure: line 202 raises
NameError through the unbound name bias of forward_segnetwork, so
every iteration stops there; the dead continuation (lines 203-235) is
embedded statement by statement behind that failure. -/
def finetuning_loop (m : FtModel) (mode : Mode) :
    Nat → ℚ → Nat → FtLoopOut
  | 0, _, steps => { result := none, raised := none, gd_steps := steps }
  | Nat.succ _, w, steps =>
      match seg_call (m.pred_tr w) with
      | none =>
          { result := none, raised := some (PyError.nameError "bias"),
            gd_steps := steps }
      | some pred =>
          let _tr_loss := m.loss_tr pred
          let g := m.grad_tr w
          let w1 := w - m.finetuning_lr * g
          match mode with
          | Mode.meta_train =>
              match seg_call (m.pred_val w1) with
              | none =>
                  { result := none,
                    raised := some (PyError.nameError "bias"),
                    gd_steps := steps + 1 }
              | some pv =>
                  let _val_loss := m.loss_val pv
                  { result := none, raised := some PyError.malformedStmt,
                    gd_steps := steps + 1 }
          | _ =>
              { result := none, raised := some (PyError.nameError "data"),
                gd_steps := steps + 1 }

/-- Result of one call to finetuning_inner_loop: the returned value
(none models the implicit Python None when no return ran), the raised
exception (none when the call returned normally), the initial
task-local weight of line 200, the ghost descent-step counter, and
the meta segmentation weight after the call. -/
structure FtResult where
  result : Option (ℚ × Option ℚ × Option (List ℚ) × ℚ)
  raised : Option PyError
  init_weight : ℚ
  gd_steps : Nat
  final_seg_weight : ℚ

/-- finetuning_inner_loop (model.py lines 180-235): initialize the
task-local weight as seg_weight - finetuning_lr * seg_weight_grad
(line 200, which executes without failure) and run the loop over
range(num_steps - 1).  The stored meta weight is never written, which
the final_seg_weight field records. -/
def finetuning_inner_loop (m : FtModel) (mode : Mode) (num_steps : Nat)
    (seg_weight_grad : ℚ) : FtResult :=
  let weight := m.seg_weight - m.finetuning_lr * seg_weight_grad
  let out := finetuning_loop m mode (num_steps - 1) weight 0
  { result := out.result, raised := out.raised, init_weight := weight,
    gd_steps := out.gd_steps, final_seg_weight := m.seg_weight }

/-- Concrete instance of FtModel used to evaluate the finetuning loop
at explicit inputs. -/
def ft_example_model : FtModel :=
  { seg_weight := 1
    finetuning_lr := 1
    pred_tr := fun w => w
    loss_tr := fun p => p
    grad_tr := fun w => w
    pred_val := fun w => w
    loss_val := fun p => p }

/- ### Checkpoint saving: save_model (model.py lines 294-355, identical
copy in utils.py lines 310-368)

The file system is abstracted to the checkpoint slot for the one
relevant (experiment, episode) key plus the textual log; the
interactive confirmation reads from a list of input strings.  The
while loop runs while trials < 3; an unrecognized input increments
trials and when trials reaches 3 the function raises ValueError. -/

/-- Outcome of a save_model call: a successful write, or a raised
ValueError with the message of the source. -/
inductive SaveOutcome where
  | saved : SaveOutcome
  | error (msg : String) : SaveOutcome
  deriving DecidableEq, Repr

/-- Abstract file system state for one (experiment, episode) key: the
checkpoint slot content (none when no checkpoint file exists) and the
log file lines. -/
structure FsState where
  checkpoint : Option Nat
  log : List String
  deriving DecidableEq, Repr

/-- The accepted affirmative tokens of the confirmation prompt. -/
def positive_options : List String := ["Yes", "y", "yes"]

/-- The accepted negative tokens of the confirmation prompt. -/
def negative_options : List String := ["No", "n", "no"]

/-- The while loop of save_model (lines 329-355).  The fuel argument
is 3 - trials; when prompt_deletion is set an input string is
consumed, otherwise the input is the constant Yes.  A positive answer
deletes the old checkpoint, writes the new one and appends the
deletion record; a negative answer raises; an unrecognized answer
decrements the fuel and raises once trials reaches 3.  Fuel 0 models
the loop condition becoming false, which the source cannot reach
because the raise at trials equal 3 fires first. -/
def save_model_loop (prompt_deletion : Bool) (episode new_data : Nat)
    (st : FsState) : Nat → List String → SaveOutcome × FsState
  | 0, _ => (SaveOutcome.error "loop exit", st)
  | Nat.succ k, inputs =>
      let user_input := if prompt_deletion then inputs.headD "" else "Yes"
      let rest := if prompt_deletion then inputs.tail else inputs
      if user_input ∈ positive_options then
        (SaveOutcome.saved,
         { checkpoint := some new_data,
           log := st.log ++
             ["checkpoint " ++ toString episode ++ " was deleted"] })
      else if user_input ∈ negative_options then
        (SaveOutcome.error "Supply the correct episode number to start experiment",
         st)
      else if k = 0 then
        (SaveOutcome.error "Supply the correct answer to the question", st)
      else
        save_model_loop prompt_deletion episode new_data st k rest

/-- save_model: when no checkpoint exists at the key the data is
written directly (lines 326-327); otherwise the confirmation loop
runs with a trial budget of 3 (lines 328-355). -/
def save_model (prompt_deletion : Bool) (inputs : List String)
    (episode new_data : Nat) (st : FsState) : SaveOutcome × FsState :=
  match st.checkpoint with
  | none => (SaveOutcome.saved, { st with checkpoint := some new_data })
  | some _ => save_model_loop prompt_deletion episode new_data st 3 inputs

/- ### Checkpoint loading: episode selection (model.py lines 379-384 and
utils.py lines 280-285)

Both load_model variants scan the experiment directory listing and,
when the configured episode is the sentinel -1, select the latest
episode.  The model.py variant filters the listing to names whose
extension is .tar and parses the integer between the first underscore
and the first dot; the utils.py variant pops the last listing entry
and converts the single character at index 11 of each remaining name.
String splitting is embedded on character lists with the semantics of
the Python str.split method; int() on a string of digits is embedded
by parse_nat_digits, returning none where Python raises. -/

/-- Splits a character list at every occurrence of the separator, the
semantics of the Python str.split method with a one-character
separator: the result always has one more group than separators. -/
def splitOnChar (c : Char) : List Char → List (List Char)
  | [] => [[]]
  | ch :: rest =>
      let r := splitOnChar c rest
      if ch = c then [] :: r
      else
        match r with
        | [] => [[ch]]
        | g :: gs => (ch :: g) :: gs

/-- Python int() on a string of decimal digits: some value when the
string is non-empty and all digits, none where int() raises
ValueError. -/
def parse_nat_digits (ds : List Char) : Option Nat :=
  if ds ≠ [] ∧ ds.all (fun c => c.isDigit) then
    some (ds.foldl (fun acc c => 10 * acc + (c.toNat - 48)) 0)
  else none

/-- The filter of model.py line 380: os.path.splitext(i)[-1] == ".tar",
i.e. the name has at least one dot and its last dot-separated
component is tar. -/
def has_tar_ext (s : String) : Bool :=
  let parts := splitOnChar '.' s.data
  decide (2 ≤ parts.length) && (parts.getLastD [] == "tar".data)

/-- The per-name parse of model.py line 381:
int(cp.split(".")[0].split("_")[1]). -/
def model_parse_episode (cp : String) : Option Nat :=
  match (splitOnChar '_' ((splitOnChar '.' cp.data).headD [])).get? 1 with
  | some ds => parse_nat_digits ds
  | none => none

/-- Episode selection of model.py lines 379-381: filter the directory
listing to .tar names, parse every episode number, take the maximum;
none models the exceptions Python raises on an unparsable name or an
empty candidate list. -/
def model_max_cp (listing : List String) : Option Nat :=
  match (listing.filter has_tar_ext).mapM model_parse_episode with
  | some eps => eps.max?
  | none => none

/-- The per-name parse of utils.py line 282: int(cp[11]), the single
character at index 11; none where Python raises IndexError or
ValueError. -/
def utils_digit_at_11 (cp : String) : Option Nat :=
  match cp.data.get? 11 with
  | some ch => if ch.isDigit then some (ch.toNat - 48) else none
  | none => none

/-- Episode selection of utils.py lines 280-282: pop the last listing
entry, convert the character at index 11 of every remaining name, take
the maximum. -/
def utils_max_cp (listing : List String) : Option Nat :=
  match (listing.dropLast).mapM utils_digit_at_11 with
  | some eps => eps.max?
  | none => none

/-- A directory listing containing a multi-digit episode checkpoint, a
single-digit episode checkpoint and the log file that check_experiment
creates alongside them. -/
def sample_listing : List String :=
  ["checkpoint_12.pth.tar", "checkpoint_2.pth.tar", "model_log.txt"]

/- ### IoU computation: calc_iou_per_class (utils.py lines 194-203)

Per example the source takes the argmax of the two-channel logits over
the channel axis (np.argmax returns the first maximal index, so the
predicted pixel is positive exactly when the second logit is strictly
greater than the first), binarizes the ground truth by non-zero, and
divides the size of the pixelwise conjunction by the size of the
pixelwise disjunction; the per-class value is the mean over
examples.  Pixels are embedded as flat lists. -/

/-- Binarized prediction at one pixel: np.argmax over the two channel
logits equals 1 exactly when the second logit is strictly greater. -/
def pred_positive (l : ℚ × ℚ) : Bool := decide (l.1 < l.2)

/-- Binarized ground truth at one pixel: non-zero class label. -/
def target_positive (t : Nat) : Bool := decide (t ≠ 0)

/-- Size of the pixelwise conjunction of two binary masks,
np.sum(np.logical_and(target, pred)). -/
def inter_count (pb tb : List Bool) : Nat :=
  (List.zipWith (fun a b => a && b) pb tb).count true

/-- Size of the pixelwise disjunction of two binary masks,
np.sum(np.logical_or(target, pred)). -/
def union_count (pb tb : List Bool) : Nat :=
  (List.zipWith (fun a b => a || b) pb tb).count true

/-- The per-example IoU of utils.py line 200: intersection size over
union size of the binarized prediction and ground truth. -/
def calc_iou (pred : List (ℚ × ℚ)) (target : List Nat) : ℚ :=
  ((inter_count (pred.map pred_positive) (target.map target_positive) : ℚ)) /
  ((union_count (pred.map pred_positive) (target.map target_positive) : ℚ))

/-- calc_iou_per_class (utils.py lines 194-203): the mean of the
per-example IoU values over the examples of a batch. -/
def calc_iou_per_class (examples : List (List (ℚ × ℚ) × List Nat)) : ℚ :=
  let ious := examples.map (fun e => calc_iou e.1 e.2)
  ious.sum / (ious.length : ℚ)

/-- Concrete prediction logits used to evaluate calc_iou at an
explicit input. -/
def iou_example_pred : List (ℚ × ℚ) := [(0, 1), (2, 1)]

/-- Concrete ground truth mask used to evaluate calc_iou at an
explicit input. -/
def iou_example_target : List Nat := [1, 0]

/- ### Theorems -/

/-- Claim C1: during one episode the meta parameters are never mutated
before all tasks' gradients are computed, and exactly one optimizer
update is applied, after the whole batch.  The code violates this: for
a batch of 2 tasks the embedded episode performs 2 decoder steps and
2 segmentation-weight steps, and task 1's gradients are computed after
an optimizer update has already been applied. -/
theorem compute_loss_updates_inside_loop :
    (compute_loss 2 (fun _ => ([1], 1))).decoder_steps = 2 ∧
    (compute_loss 2 (fun _ => ([1], 1))).seg_steps = 2 ∧
    grads_after_update (compute_loss 2 (fun _ => ([1], 1))).trace = true := by
  decide

/-- Claim C2: with num_tasks = 2 and both tasks returning decoder
gradient [1] and head gradient 1, the decoder gradient slot at the end
of the batch holds [1] (the claimed average) but the head gradient
slot holds 3/2, because line 271 of model.py self-adds the current
task's gradient (seg_weight_grad += seg_weight_grad/num_tasks) instead
of accumulating into a running total. -/
theorem compute_loss_head_gradient_self_add :
    (compute_loss 2 (fun _ => ([1], 1))).decoder_grad_slot = some [1] ∧
    (compute_loss 2 (fun _ => ([1], 1))).seg_grad_slot = some ((3 : ℚ) / 2) := by
  simp [compute_loss, compute_loss_task, List.range_succ]
  norm_num

/-- Claim C3: with num_adaptation_steps = 0 the inner loop performs no
latent update and the segmentation weight gradient is computed from
the loss of the initial forward pass; however the function does not
return that gradient, because the name features was discarded as an
underscore in the initial unpacking and is unbound when the loop body
never runs, so the return statement raises NameError (modeled by the
none result). -/
theorem leo_inner_loop_zero_steps (m : InnerModel) :
    (leo_inner_loop_run m 0).latents = m.latent0 ∧
    (leo_inner_loop_run m 0).seg_weight_grad =
      m.grad_seg (m.loss_target_first m.pred0) ∧
    leo_inner_loop m 0 = none :=
  ⟨rfl, rfl, rfl⟩

/-- Counterexample to claim C4 as stated: with num_finetuning_steps = 3
in meta_train mode the routine performs 0 gradient descent steps on
the task-local weight, not num_finetuning_steps - 1 = 2: the first
loop iteration raises NameError at the training forward pass of line
202 before the descent step of line 206 can run. -/
theorem finetuning_gd_steps_counterexample :
    (finetuning_inner_loop ft_example_model Mode.meta_train 3 1).gd_steps ≠
      3 - 1 := by
  decide

/-- Claim C4 as amended: the routine initializes the task-local weight
as seg_weight - finetuning_lr * seg_weight_grad (this assignment
executes) and never modifies the meta head weight, but it performs
zero gradient descent steps on the local weight: when
num_finetuning_steps is at least 2 the first loop iteration raises
NameError at the training forward pass (line 202 evaluates the
unbound name bias inside forward_segnetwork) before the descent step
of line 206, and when num_finetuning_steps is at most 1 the loop body
never executes (and nothing is raised). -/
theorem finetuning_inner_loop_amended (m : FtModel) (mode : Mode)
    (num_steps : Nat) (g : ℚ) :
    (finetuning_inner_loop m mode num_steps g).init_weight =
      m.seg_weight - m.finetuning_lr * g ∧
    (finetuning_inner_loop m mode num_steps g).gd_steps = 0 ∧
    (finetuning_inner_loop m mode num_steps g).final_seg_weight =
      m.seg_weight ∧
    (finetuning_inner_loop m mode num_steps g).raised =
      (if 2 ≤ num_steps then some (PyError.nameError "bias") else none) := by
  match num_steps with
  | 0 => exact ⟨rfl, rfl, rfl, rfl⟩
  | 1 => exact ⟨rfl, rfl, rfl, rfl⟩
  | Nat.succ (Nat.succ k) =>
      refine ⟨rfl, rfl, rfl, ?_⟩
      have h2 : 2 ≤ Nat.succ (Nat.succ k) := by omega
      rw [if_pos h2]
      rfl

/-- Claim C5: in meta_train mode with num_finetuning_steps at least 2
the routine is claimed to return the first loop iteration's validation
loss, head gradient, decoder gradients and mean IoU.  The code cannot
do this: the call returns no value and raises NameError at the
training forward pass of line 202 (the unbound name bias inside
forward_segnetwork), before any validation work; the validation head
call of line 211 would fail the same way and the gradient statement of
lines 213-215 is syntactically malformed. -/
theorem finetuning_meta_train_never_returns (m : FtModel) (num_steps : Nat)
    (g : ℚ) (h : 2 ≤ num_steps) :
    (finetuning_inner_loop m Mode.meta_train num_steps g).result = none ∧
    (finetuning_inner_loop m Mode.meta_train num_steps g).raised =
      some (PyError.nameError "bias") := by
  match num_steps, h with
  | Nat.succ (Nat.succ k), _ => exact ⟨rfl, rfl⟩

/-- Witness for claim C5 at num_finetuning_steps = 2. -/
theorem finetuning_meta_train_never_returns_witness :
    2 ≤ 2 ∧
    ((finetuning_inner_loop ft_example_model Mode.meta_train 2 1).result =
      none ∧
    (finetuning_inner_loop ft_example_model Mode.meta_train 2 1).raised =
      some (PyError.nameError "bias")) :=
  ⟨by decide,
   finetuning_meta_train_never_returns ft_example_model 2 1 (by decide)⟩

/-- Claim C10: whenever num_finetuning_steps is at most 1 the loop
body of finetuning_inner_loop never executes and the routine returns
Python None (the none result, with no exception raised) in every mode
instead of the contracted 4-tuple. -/
theorem finetuning_returns_none_when_steps_le_one (m : FtModel) (mode : Mode)
    (num_steps : Nat) (g : ℚ) (h : num_steps ≤ 1) :
    (finetuning_inner_loop m mode num_steps g).result = none ∧
    (finetuning_inner_loop m mode num_steps g).raised = none := by
  match num_steps, h with
  | 0, _ => exact ⟨rfl, rfl⟩
  | 1, _ => exact ⟨rfl, rfl⟩

/-- Witness for claim C10 at num_finetuning_steps = 1. -/
theorem finetuning_returns_none_when_steps_le_one_witness :
    1 ≤ 1 ∧
    ((finetuning_inner_loop ft_example_model Mode.meta_val 1 0).result = none ∧
    (finetuning_inner_loop ft_example_model Mode.meta_val 1 0).raised = none) :=
  ⟨by decide,
   finetuning_returns_none_when_steps_le_one ft_example_model Mode.meta_val 1 0
     (by decide)⟩

/-- Claim C6: when a checkpoint already exists at the key,
prompt_deletion is enabled and the confirmation receives 3 consecutive
inputs that are neither affirmative nor negative, save_model raises
the fatal error of line 355 and the file system state is unchanged:
the pre-existing checkpoint is neither deleted nor overwritten. -/
theorem save_model_three_bad_inputs (c episode new_data : Nat)
    (lg : List String) (i1 i2 i3 : String) (rest : List String)
    (h1p : i1 ∉ positive_options) (h1n : i1 ∉ negative_options)
    (h2p : i2 ∉ positive_options) (h2n : i2 ∉ negative_options)
    (h3p : i3 ∉ positive_options) (h3n : i3 ∉ negative_options) :
    save_model true (i1 :: i2 :: i3 :: rest) episode new_data ⟨some c, lg⟩ =
      (SaveOutcome.error "Supply the correct answer to the question",
       ⟨some c, lg⟩) := by
  simp [save_model, save_model_loop, h1p, h1n, h2p, h2n, h3p, h3n]

/-- Witness for claim C6 with the three unrecognized inputs maybe,
dunno and what. -/
theorem save_model_three_bad_inputs_witness :
    ("maybe" ∉ positive_options ∧ "maybe" ∉ negative_options ∧
     "dunno" ∉ positive_options ∧ "dunno" ∉ negative_options ∧
     "what" ∉ positive_options ∧ "what" ∉ negative_options) ∧
    save_model true ["maybe", "dunno", "what"] 7 1 ⟨some 5, []⟩ =
      (SaveOutcome.error "Supply the correct answer to the question",
       ⟨some 5, []⟩) :=
  ⟨by decide,
   save_model_three_bad_inputs 5 7 1 [] "maybe" "dunno" "what" []
     (by decide) (by decide) (by decide) (by decide) (by decide) (by decide)⟩

/-- Claim C7: loading with the episode sentinel -1 selects the maximum
episode number parsed from the checkpoint filenames, in particular for
multi-digit episodes.  On a directory listing holding checkpoints for
episodes 12 and 2 plus the log file, the model.py selection parses the
full episode numbers and returns 12, but the utils.py selection
converts only the single character at index 11 of each name (after
popping the last listing entry), reads episode 12 as 1 and returns
episode 2. -/
theorem load_model_latest_selection_bug :
    utils_max_cp sample_listing = some 2 ∧
    model_max_cp sample_listing = some 12 := by
  decide

/-- The pixelwise conjunction of two binary masks is at most their
pixelwise disjunction in size. -/
theorem inter_count_le_union_count (pb tb : List Bool) :
    inter_count pb tb ≤ union_count pb tb := by
  induction pb generalizing tb with
  | nil => simp [inter_count, union_count]
  | cons a l ih =>
    cases tb with
    | nil => simp [inter_count, union_count]
    | cons b t =>
      have h := ih t
      cases a <;> cases b <;>
        simp [inter_count, union_count, List.count_cons] at h ⊢ <;> omega

/-- Pixelwise conjunction of a mask with itself is the mask. -/
theorem zipWith_and_self (l : List Bool) :
    List.zipWith (fun a b => a && b) l l = l := by
  induction l with
  | nil => rfl
  | cons a t ih => simp [List.zipWith, ih]

/-- Pixelwise disjunction of a mask with itself is the mask. -/
theorem zipWith_or_self (l : List Bool) :
    List.zipWith (fun a b => a || b) l l = l := by
  induction l with
  | nil => rfl
  | cons a t ih => simp [List.zipWith, ih]

/-- On equal masks the intersection and union sizes agree. -/
theorem inter_count_self_eq_union (l : List Bool) :
    inter_count l l = union_count l l := by
  unfold inter_count union_count
  rw [zipWith_and_self, zipWith_or_self]

/-- Claim C8: for every prediction and ground truth pair whose
binarized masks have non-empty union, the computed IoU lies between 0
and 1; it equals 1 when the binarized prediction equals the binarized
ground truth exactly, and it equals 0 when the two masks are disjoint
and both non-empty. -/
theorem calc_iou_bounds (pred : List (ℚ × ℚ)) (target : List Nat)
    (hU : union_count (pred.map pred_positive) (target.map target_positive) ≠ 0) :
    0 ≤ calc_iou pred target ∧ calc_iou pred target ≤ 1 ∧
    (pred.map pred_positive = target.map target_positive →
      calc_iou pred target = 1) ∧
    (inter_count (pred.map pred_positive) (target.map target_positive) = 0 →
      (pred.map pred_positive).count true ≠ 0 →
      (target.map target_positive).count true ≠ 0 →
      calc_iou pred target = 0) := by
  have hle := inter_count_le_union_count (pred.map pred_positive)
    (target.map target_positive)
  have hUpos : (0 : ℚ) <
      ((union_count (pred.map pred_positive) (target.map target_positive) : Nat) : ℚ) := by
    exact_mod_cast Nat.pos_of_ne_zero hU
  unfold calc_iou
  refine ⟨div_nonneg (Nat.cast_nonneg _) hUpos.le, ?_, ?_, ?_⟩
  · exact (div_le_one hUpos).mpr (by exact_mod_cast hle)
  · intro heq
    rw [heq] at hU ⊢
    rw [inter_count_self_eq_union]
    exact div_self (by exact_mod_cast hU)
  · intro h0 _ _
    rw [h0]
    simp

/-- Witness for claim C8 at an explicit prediction and ground truth
with non-empty union. -/
theorem calc_iou_bounds_witness :
    union_count (iou_example_pred.map pred_positive)
      (iou_example_target.map target_positive) ≠ 0 ∧
    (0 ≤ calc_iou iou_example_pred iou_example_target ∧
     calc_iou iou_example_pred iou_example_target ≤ 1 ∧
     (iou_example_pred.map pred_positive =
        iou_example_target.map target_positive →
       calc_iou iou_example_pred iou_example_target = 1) ∧
     (inter_count (iou_example_pred.map pred_positive)
        (iou_example_target.map target_positive) = 0 →
      (iou_example_pred.map pred_positive).count true ≠ 0 →
      (iou_example_target.map target_positive).count true ≠ 0 →
      calc_iou iou_example_pred iou_example_target = 0)) :=
  ⟨by decide, calc_iou_bounds iou_example_pred iou_example_target (by decide)⟩

/-- Claim C9: forward_segnetwork is claimed to concatenate the decoded
features with the input image and return the logits of one 3 by 3,
stride 1, padding 1, bias-free convolution with the externally
supplied weight.  The code cannot return logits: the third argument of
the F.conv2d call at line 127 is the unbound name bias (its sole
occurrence in the source), so every call raises NameError (the none
result).  The stored meta weight of the head is never read (two heads
with different stored weights behave identically), and for the
convolution the call evidently intended, passing no bias coincides
with a zero bias vector. -/
theorem forward_segnetwork_unbound_bias (head1 head2 : SegHead) (H W : Nat)
    (decoder_out x : List Plane) (weight : List (List Kern3)) :
    forward_segnetwork head1 H W decoder_out x weight = none ∧
    forward_segnetwork head1 H W decoder_out x weight =
      forward_segnetwork head2 H W decoder_out x weight ∧
    conv2d H W (decoder_out ++ x) weight none 1 1 =
      conv2d H W (decoder_out ++ x) weight
        (some (List.replicate weight.length 0)) 1 1 :=
  ⟨rfl, rfl, rfl⟩
